import Mathlib

/-!
Verification development for the reqline endpoint
(src/endpoints/reqline/parse.js).

JavaScript strings are modelled as Lean `String`s over their character lists.
The JS built-ins the source uses (`split`, `trim`, `startsWith`, `substring`,
`includes`, `toLowerCase`, `encodeURIComponent`, `Object.keys`,
`Object.entries`, template-literal coercion) are given explicit executable
models below, structurally recursive so that concrete runs reduce in the
kernel.  `JSON.parse` is a runtime facility external to the source file and is
passed to the parser as a parameter (`JsonParser`); `axios` is the external
HTTP collaborator and is passed to the handler as a function from the request
configuration to a result.  `Date.now()` is modelled by the two timestamp
arguments of the handler.
-/

namespace Reqline

/-- Whitespace as removed by `String.prototype.trim` (restricted to the ASCII
whitespace characters exercised by this development). -/
def isWs (c : Char) : Bool :=
  c == ' ' || c == '\t' || c == '\n' || c == '\r'

/-- Model of `trim` on character lists: drop whitespace from both ends. -/
def trimL (s : List Char) : List Char :=
  ((s.dropWhile isWs).reverse.dropWhile isWs).reverse

/-- Model of `String.prototype.trim`. -/
def jsTrim (s : String) : String :=
  ⟨trimL s.data⟩

/-- Model of `String.prototype.startsWith`. -/
def jsStartsWith (s pre : String) : Bool :=
  pre.data.isPrefixOf s.data

/-- Model of `String.prototype.substring(n)` (drop the first `n` characters). -/
def jsSubstringFrom (s : String) (n : Nat) : String :=
  ⟨s.data.drop n⟩

/-- Fuel-indexed worker for `split`: scans the input left to right, cutting at
each non-overlapping leftmost occurrence of the (non-empty) separator.  The
fuel is always instantiated with the length of the input, which is enough for
every non-empty separator, and keeps the recursion structural. -/
def splitLGo (sep : List Char) : Nat → List Char → List Char → List (List Char)
  | _, [], cur => [cur.reverse]
  | 0, rest, cur => [cur.reverse ++ rest]
  | fuel + 1, c :: rest, cur =>
    if sep.isPrefixOf (c :: rest) then
      cur.reverse :: splitLGo sep fuel (List.drop sep.length (c :: rest)) []
    else
      splitLGo sep fuel rest (c :: cur)

/-- Model of `String.prototype.split(sep)` for a non-empty separator string. -/
def jsSplit (s sep : String) : List String :=
  (splitLGo sep.data s.data.length s.data []).map (fun l => ⟨l⟩)

/-- Worker for `includes`: does `sub` occur in the scanned list? -/
def containsL (sub : List Char) : List Char → Bool
  | [] => sub.isEmpty
  | c :: rest => sub.isPrefixOf (c :: rest) || containsL sub rest

/-- Model of `String.prototype.includes`. -/
def jsIncludes (s sub : String) : Bool :=
  containsL sub.data s.data

/-- Lower-case a single character, ASCII only, as `toLowerCase` does on the
method tokens GET/POST. -/
def jsCharToLower (c : Char) : Char :=
  if 65 ≤ c.toNat ∧ c.toNat ≤ 90 then Char.ofNat (c.toNat + 32) else c

/-- Model of `String.prototype.toLowerCase` (ASCII). -/
def jsToLower (s : String) : String :=
  ⟨s.data.map jsCharToLower⟩

/-- Join a list of strings with a separator, as `Array.prototype.join`. -/
def joinWith (sep : String) : List String → String
  | [] => ""
  | [x] => x
  | x :: xs => x ++ sep ++ joinWith sep xs

/-- JSON values, as produced by `JSON.parse`.  Objects are ordered field
lists (JS object insertion order). -/
inductive Json where
  | null : Json
  | bool : Bool → Json
  | num : Int → Json
  | str : String → Json
  | arr : List Json → Json
  | obj : List (String × Json) → Json

/-- `JSON.parse` is external to the source file; the parser receives it as a
parameter.  `none` models a parse throw (malformed JSON text). -/
def JsonParser := String → Option Json

/-- Model of JS truthiness on JSON values (`!queryParams`). -/
def jsFalsy : Json → Bool
  | Json.null => true
  | Json.bool false => true
  | Json.num 0 => true
  | Json.str "" => true
  | _ => false

/-- Model of `Object.keys` on a (non-null) JSON value: field names of an
object, index strings of an array or string, nothing for other primitives. -/
def jsKeys : Json → List String
  | Json.obj fields => fields.map Prod.fst
  | Json.arr items => (List.range items.length).map (fun n => toString n)
  | Json.str s => (List.range s.data.length).map (fun n => toString n)
  | _ => []

/-- Model of `Object.entries` on a (non-null) JSON value. -/
def jsEntries : Json → List (String × Json)
  | Json.obj fields => fields
  | Json.arr items => items.enum.map (fun p => (toString p.1, p.2))
  | Json.str s => s.data.enum.map (fun p => (toString p.1, Json.str ⟨[p.2]⟩))
  | _ => []

/-- Template-literal coercion of a JSON value to a string, as in the
interpolation inside `buildFullUrl`.  Arrays are joined with commas one level
deep over their scalar rendering, the only form this development exercises. -/
def jsScalarToString : Json → String
  | Json.null => "null"
  | Json.bool true => "true"
  | Json.bool false => "false"
  | Json.num n => toString n
  | Json.str s => s
  | Json.arr _ => ""
  | Json.obj _ => "[object Object]"

/-- Template-literal coercion of a JSON value to a string. -/
def jsToString : Json → String
  | Json.arr items => joinWith "," (items.map jsScalarToString)
  | v => jsScalarToString v

/-- One hexadecimal digit, upper case, as produced by `encodeURIComponent`. -/
def hexDigit (n : Nat) : Char :=
  if n < 10 then Char.ofNat (48 + n) else Char.ofNat (55 + n)

/-- UTF-8 bytes of a character (scalar values, as JS percent-encodes them). -/
def utf8Bytes (c : Char) : List Nat :=
  let n := c.toNat
  if n < 128 then [n]
  else if n < 2048 then [192 + n / 64, 128 + n % 64]
  else if n < 65536 then [224 + n / 4096, 128 + (n / 64) % 64, 128 + n % 64]
  else [240 + n / 262144, 128 + (n / 4096) % 64, 128 + (n / 64) % 64, 128 + n % 64]

/-- The characters `encodeURIComponent` leaves unescaped. -/
def isUriUnreserved (c : Char) : Bool :=
  (65 ≤ c.toNat && c.toNat ≤ 90) || (97 ≤ c.toNat && c.toNat ≤ 122) ||
  (48 ≤ c.toNat && c.toNat ≤ 57) ||
  c == '-' || c == '_' || c == '.' || c == '!' || c == '~' ||
  c == '*' || c == Char.ofNat 39 || c == '(' || c == ')'

/-- Percent-encoding of one character. -/
def encChar (c : Char) : List Char :=
  if isUriUnreserved c then [c]
  else (utf8Bytes c).flatMap (fun b => ['%', hexDigit (b / 16), hexDigit (b % 16)])

/-- Model of `encodeURIComponent`. -/
def encodeURIComponent (s : String) : String :=
  ⟨s.data.flatMap encChar⟩

/-- The mutable `result` object of `parseReqline`, before the final
method/url presence checks (`method` and `url` start as `null`). -/
structure ParseAcc where
  method : Option String
  url : Option String
  headers : Json
  query : Json
  body : Json

/-- The descriptor `parseReqline` returns on success. -/
structure Descriptor where
  method : String
  url : String
  headers : Json
  query : Json
  body : Json

/-- The loop body of `parseReqline` for the segment at index `i`
(src/endpoints/reqline/parse.js lines 19-88). -/
def processPart (jp : JsonParser) (i : Nat) (rawPart : String) (acc : ParseAcc) :
    Except String ParseAcc :=
  let part := jsTrim rawPart
  match i with
  | 0 =>
    if ¬ jsStartsWith part "HTTP " then
      Except.error "Missing required HTTP keyword"
    else
      let methodPart := jsTrim (jsSubstringFrom part 5)
      if methodPart = "" then
        Except.error "Missing HTTP method"
      else if methodPart ≠ "GET" ∧ methodPart ≠ "POST" then
        Except.error "Invalid HTTP method. Only GET and POST are supported"
      else
        Except.ok { acc with method := some methodPart }
  | 1 =>
    if ¬ jsStartsWith part "URL " then
      Except.error "Missing required URL keyword"
    else
      let urlPart := jsTrim (jsSubstringFrom part 4)
      if urlPart = "" then
        Except.error "Missing URL value"
      else if ¬ jsStartsWith urlPart "http://" ∧ ¬ jsStartsWith urlPart "https://" then
        Except.error "Invalid URL format. Must start with http:// or https://"
      else if (jsSplit urlPart "/").length < 3 then
        Except.error "Invalid URL format. Missing domain or path"
      else
        Except.ok { acc with url := some urlPart }
  | _ + 2 =>
    if jsStartsWith part "HEADERS " then
      let headersPart := jsTrim (jsSubstringFrom part 8)
      if headersPart = "" then
        Except.ok acc
      else
        match jp headersPart with
        | some v => Except.ok { acc with headers := v }
        | none => Except.error "Invalid JSON format in HEADERS section"
    else if jsStartsWith part "QUERY " then
      let queryPart := jsTrim (jsSubstringFrom part 6)
      if queryPart = "" then
        Except.ok acc
      else
        match jp queryPart with
        | some v => Except.ok { acc with query := v }
        | none => Except.error "Invalid JSON format in QUERY section"
    else if jsStartsWith part "BODY " then
      let bodyPart := jsTrim (jsSubstringFrom part 5)
      if bodyPart = "" then
        Except.ok acc
      else
        match jp bodyPart with
        | some v => Except.ok { acc with body := v }
        | none => Except.error "Invalid JSON format in BODY section"
    else
      Except.error ("Unknown keyword: " ++ ((jsSplit part " ").headD ""))

/-- The `for` loop of `parseReqline` over all segments. -/
def runParts (jp : JsonParser) : List String → Nat → ParseAcc → Except String ParseAcc
  | [], _, acc => Except.ok acc
  | p :: ps, i, acc =>
    match processPart jp i p acc with
    | Except.error e => Except.error e
    | Except.ok acc' => runParts jp ps (i + 1) acc'

/-- The initial `result` object of `parseReqline`
(src/endpoints/reqline/parse.js lines 11-17). -/
def accInit : ParseAcc :=
  { method := none, url := none
    headers := Json.obj [], query := Json.obj [], body := Json.obj [] }

/-- `parseReqline` (src/endpoints/reqline/parse.js lines 4-99): split on the
literal separator, process each segment, then re-check that `method` and
`url` were set. -/
def parseReqline (jp : JsonParser) (reqline : String) : Except String Descriptor :=
  let parts := jsSplit reqline " | "
  if parts.length < 2 then
    Except.error "Invalid reqline format. Expected at least HTTP and URL parts."
  else
    match runParts jp parts 0 accInit with
    | Except.error e => Except.error e
    | Except.ok r =>
      match r.method with
      | none => Except.error "Missing required HTTP keyword"
      | some m =>
        match r.url with
        | none => Except.error "Missing required URL keyword"
        | some u =>
          Except.ok { method := m, url := u
                      headers := r.headers, query := r.query, body := r.body }

/-- `buildFullUrl` (src/endpoints/reqline/parse.js lines 102-113). -/
def buildFullUrl (baseUrl : String) (queryParams : Json) : String :=
  if jsFalsy queryParams ∨ (jsKeys queryParams).length = 0 then
    baseUrl
  else
    let separator := if jsIncludes baseUrl "?" then "&" else "?"
    let queryString :=
      joinWith "&"
        ((jsEntries queryParams).map
          (fun kv => encodeURIComponent kv.1 ++ "=" ++ encodeURIComponent (jsToString kv.2)))
    baseUrl ++ separator ++ queryString

/-- The `response` object carried by a collaborator (axios) rejection when the
upstream server answered with an error status. -/
structure AxiosErrResponse where
  status : Nat
  statusText : String

/-- A rejection caught by the handler's catch block: an error message, plus
the upstream response when there was one.  Parse errors thrown by
`parseReqline` carry no response. -/
structure AxiosError where
  message : String
  response : Option AxiosErrResponse

/-- The collaborator's fulfilled value. -/
structure AxiosOk where
  status : Nat
  data : Json

/-- The request configuration the handler hands to the collaborator
(src/endpoints/reqline/parse.js lines 136-145). -/
structure RequestConfig where
  method : String
  url : String
  headers : Json
  timeout : Nat
  data : Option Json

/-- Status constants provided by the server helpers. -/
def HTTP_200_OK : Nat := 200

/-- Status constants provided by the server helpers. -/
def HTTP_400_BAD_REQUEST : Nat := 400

/-- The `request` half of the success envelope. -/
structure RequestEcho where
  query : Json
  body : Json
  headers : Json
  full_url : String

/-- The `response` half of the success envelope. -/
structure ResponseMeta where
  http_status : Nat
  duration : Int
  request_start_timestamp : Nat
  request_stop_timestamp : Nat
  response_data : Json

/-- The payload of the endpoint's reply: either the error shape
`{error: true, message}` or the success envelope. -/
inductive HandlerData where
  | err : String → HandlerData
  | ok : RequestEcho → ResponseMeta → HandlerData

/-- The endpoint's reply: a status code and a payload. -/
structure HandlerResponse where
  status : Nat
  data : HandlerData

/-- The catch block's test for parser/validation messages
(src/endpoints/reqline/parse.js lines 172-178): substring containment
against five fixed fragments. -/
def isParseErrorMessage (m : String) : Bool :=
  jsIncludes m "Invalid reqline format" || jsIncludes m "Missing required" ||
  jsIncludes m "Invalid HTTP method" || jsIncludes m "Invalid JSON format" ||
  jsIncludes m "Unknown keyword"

/-- The catch block's message selection (src/endpoints/reqline/parse.js
lines 171-204): classified parse messages pass through unchanged; otherwise a
rejection with an upstream response reports it; anything else is a network
error. -/
def classifyError (e : AxiosError) : String :=
  if isParseErrorMessage e.message then
    e.message
  else
    match e.response with
    | some r => "HTTP request failed: " ++ toString r.status ++ " " ++ r.statusText
    | none => "Network error: " ++ e.message

/-- Every arm of the catch block returns status 400 with the classified
message. -/
def errorResponse (e : AxiosError) : HandlerResponse :=
  ⟨HTTP_400_BAD_REQUEST, HandlerData.err (classifyError e)⟩

/-- The request configuration before the conditional body attachment
(src/endpoints/reqline/parse.js lines 138-143). -/
def buildRequestConfig (d : Descriptor) (fullUrl : String) : RequestConfig :=
  { method := jsToLower d.method, url := fullUrl, headers := d.headers
    timeout := 10000, data := none }

/-- `Object.keys` as the partial operation it is in JS: it throws on `null`
(the thrown `TypeError`'s message) and otherwise returns the key list. -/
def jsObjectKeys : Json → Except String (List String)
  | Json.null => Except.error "Cannot convert undefined or null to object"
  | v => Except.ok (jsKeys v)

/-- The conditional body attachment (src/endpoints/reqline/parse.js lines
144-145): only a POST whose body has at least one own key attaches a
payload.  The `&&` short-circuit means `Object.keys` runs only for POST; its
throw on a `null` body lands in the catch block like any other exception. -/
def attachBody (d : Descriptor) (cfg : RequestConfig) : Except String RequestConfig :=
  if d.method = "POST" then
    match jsObjectKeys d.body with
    | Except.error e => Except.error e
    | Except.ok keys =>
      if 0 < keys.length then
        Except.ok { cfg with data := some d.body }
      else
        Except.ok cfg
  else
    Except.ok cfg

/-- The endpoint handler (src/endpoints/reqline/parse.js lines 118-205).
`reqline?` is the `reqline` field of the request body (`none` when absent;
the source's falsiness test also catches the present-but-empty string).
`collab` is the awaited axios call; `startTs`/`stopTs` are the two
`Date.now()` readings around it. -/
def handler (jp : JsonParser) (reqline? : Option String)
    (collab : RequestConfig → Except AxiosError AxiosOk)
    (startTs stopTs : Nat) : HandlerResponse :=
  match reqline? with
  | none => ⟨HTTP_400_BAD_REQUEST, HandlerData.err "Missing reqline parameter"⟩
  | some reqline =>
    if reqline = "" then
      ⟨HTTP_400_BAD_REQUEST, HandlerData.err "Missing reqline parameter"⟩
    else
      match parseReqline jp reqline with
      | Except.error m => errorResponse ⟨m, none⟩
      | Except.ok parsed =>
        let fullUrl := buildFullUrl parsed.url parsed.query
        match attachBody parsed (buildRequestConfig parsed fullUrl) with
        | Except.error m => errorResponse ⟨m, none⟩
        | Except.ok requestConfig =>
          match collab requestConfig with
          | Except.error e => errorResponse e
          | Except.ok response =>
            ⟨HTTP_200_OK,
              HandlerData.ok
                ⟨parsed.query, parsed.body, parsed.headers, fullUrl⟩
                ⟨response.status, (stopTs : Int) - (startTs : Int),
                  startTs, stopTs, response.data⟩⟩

/-- A JSON parser that rejects every text; none of the inputs below reach a
JSON section, so any parser would do. -/
def jpNone : JsonParser := fun _ => none

/-- A collaborator that rejects with a bare network error; the runs below
never reach it. -/
def collabFail : RequestConfig → Except AxiosError AxiosOk :=
  fun _ => Except.error ⟨"boom", none⟩

/-- A POST descriptor with a one-field body, used as a concrete input. -/
def dPost : Descriptor :=
  { method := "POST", url := "https://api.example.com/x", headers := Json.obj []
    query := Json.obj [], body := Json.obj [("k", Json.num 1)] }

/-- The request configuration produced for `dPost`. -/
def cfgPost : RequestConfig :=
  { method := "post", url := "https://api.example.com/x", headers := Json.obj []
    timeout := 10000, data := some (Json.obj [("k", Json.num 1)]) }

/-- The URL-shape invariant maintained by the parsing loop: whenever the
`url` field is set, its value passed the two URL checks of segment 1. -/
def UrlOk (o : Option String) : Prop :=
  ∀ u, o = some u →
    (jsStartsWith u "http://" = true ∨ jsStartsWith u "https://" = true) ∧
    3 ≤ (jsSplit u "/").length

/-- The descriptor produced for a minimal GET reqline, used as a concrete
input. -/
def dGet : Descriptor :=
  { method := "GET", url := "https://x.com/y", headers := Json.obj []
    query := Json.obj [], body := Json.obj [] }

/-- C9: when the request body has no reqline field, the endpoint returns
status 400 with message "Missing reqline parameter"; the result does not
depend on the JSON parser or the collaborator, so neither is invoked. -/
theorem c9_missing_reqline (jp : JsonParser)
    (collab : RequestConfig → Except AxiosError AxiosOk) (t1 t2 : Nat) :
    handler jp none collab t1 t2 =
      ⟨400, HandlerData.err "Missing reqline parameter"⟩ := rfl

/-- C10: a present-but-empty reqline is treated exactly like an absent one:
the endpoint returns 400 with message "Missing reqline parameter", never the
"Invalid reqline format" message, for any parser and collaborator. -/
theorem c10_empty_reqline (jp : JsonParser)
    (collab : RequestConfig → Except AxiosError AxiosOk) (t1 t2 : Nat) :
    handler jp (some "") collab t1 t2 = handler jp none collab t1 t2 ∧
    handler jp (some "") collab t1 t2 =
      ⟨400, HandlerData.err "Missing reqline parameter"⟩ ∧
    handler jp (some "") collab t1 t2 ≠
      ⟨400, HandlerData.err
        "Invalid reqline format. Expected at least HTTP and URL parts."⟩ := by
  refine ⟨rfl, rfl, ?_⟩
  intro h
  have h' : HandlerData.err "Missing reqline parameter" =
      HandlerData.err "Invalid reqline format. Expected at least HTTP and URL parts." :=
    congrArg HandlerResponse.data h
  injection h' with h''
  exact absurd h'' (by decide)

/-- C1 (amended): whenever `parseReqline` fails, the handler returns status
400; the message is the parser's original message exactly when that message
contains one of the five classified fragments, and otherwise it is the
original message behind the prefix "Network error: ". -/
theorem c1_parse_failure_response (jp : JsonParser) (rl : String)
    (collab : RequestConfig → Except AxiosError AxiosOk) (t1 t2 : Nat) (m : String)
    (hne : rl ≠ "") (hp : parseReqline jp rl = Except.error m) :
    handler jp (some rl) collab t1 t2 =
      ⟨400, HandlerData.err
        (if isParseErrorMessage m then m else "Network error: " ++ m)⟩ := by
  simp only [handler]
  rw [if_neg hne, hp]
  rfl

/-- C1 witness: the amended theorem applied to a reqline whose URL scheme is
rejected; the parser's message is not classified, so the endpoint wraps it as
a network error. -/
theorem c1_parse_failure_response_witness :
    handler jpNone (some "HTTP GET | URL ftp://x.com/") collabFail 3 7 =
      ⟨400, HandlerData.err
        "Network error: Invalid URL format. Must start with http:// or https://"⟩ :=
  (c1_parse_failure_response jpNone "HTTP GET | URL ftp://x.com/" collabFail 3 7
    "Invalid URL format. Must start with http:// or https://"
    (by decide) rfl).trans (by rfl)

/-- C1 counterexample: a reqline failing with "Invalid URL format. Must start
with http:// or https://" is answered with "Network error: " prepended, which
is not the parser's original message. -/
theorem c1_counterexample :
    parseReqline jpNone "HTTP GET | URL ftp://x.com/" =
      Except.error "Invalid URL format. Must start with http:// or https://" ∧
    handler jpNone (some "HTTP GET | URL ftp://x.com/") collabFail 0 0 =
      ⟨400, HandlerData.err
        "Network error: Invalid URL format. Must start with http:// or https://"⟩ ∧
    "Network error: Invalid URL format. Must start with http:// or https://" ≠
      "Invalid URL format. Must start with http:// or https://" :=
  ⟨rfl, rfl, by decide⟩

/-- C2 (amended): every handler response has status 200 or 400; a failure
whose message contains one of the five classified fragments is reported with
that message unchanged; otherwise a rejection carrying an upstream response
is reported as "HTTP request failed: status statusText", and any remaining
failure as "Network error: message"; a collaborator rejection after a
successful parse is answered with status 400 and the classified message, so
the upstream status is never used as the endpoint's status. -/
theorem c2_status_and_classification :
    (∀ (jp : JsonParser) (q : Option String)
      (collab : RequestConfig → Except AxiosError AxiosOk) (t1 t2 : Nat),
      (handler jp q collab t1 t2).status = 200 ∨ (handler jp q collab t1 t2).status = 400) ∧
    (∀ (m : String) (r? : Option AxiosErrResponse), isParseErrorMessage m = true →
      classifyError ⟨m, r?⟩ = m) ∧
    (∀ (m : String) (r : AxiosErrResponse), isParseErrorMessage m = false →
      classifyError ⟨m, some r⟩ =
        "HTTP request failed: " ++ toString r.status ++ " " ++ r.statusText) ∧
    (∀ m : String, isParseErrorMessage m = false →
      classifyError ⟨m, none⟩ = "Network error: " ++ m) ∧
    (∀ (jp : JsonParser) (rl : String)
      (collab : RequestConfig → Except AxiosError AxiosOk) (t1 t2 : Nat)
      (d : Descriptor) (cfg : RequestConfig) (e : AxiosError),
      rl ≠ "" → parseReqline jp rl = Except.ok d →
      attachBody d (buildRequestConfig d (buildFullUrl d.url d.query)) = Except.ok cfg →
      collab cfg = Except.error e →
      handler jp (some rl) collab t1 t2 = ⟨400, HandlerData.err (classifyError e)⟩) := by
  refine ⟨?_, ?_, ?_, ?_, ?_⟩
  · intro jp q collab t1 t2
    rcases q with _ | rl
    · exact Or.inr rfl
    · by_cases h : rl = ""
      · simp only [handler, if_pos h]
        exact Or.inr rfl
      · simp only [handler, if_neg h]
        cases hp : parseReqline jp rl with
        | error m => exact Or.inr rfl
        | ok parsed =>
          dsimp only
          cases ha : attachBody parsed
              (buildRequestConfig parsed (buildFullUrl parsed.url parsed.query)) with
          | error m => exact Or.inr rfl
          | ok cfg =>
            dsimp only
            cases hc : collab cfg with
            | error e => exact Or.inr rfl
            | ok resp => exact Or.inl rfl
  · intro m r? hm
    unfold classifyError
    rw [if_pos hm]
  · intro m r hm
    unfold classifyError
    rw [if_neg (by simp [hm])]
  · intro m hm
    unfold classifyError
    rw [if_neg (by simp [hm])]
  · intro jp rl collab t1 t2 d cfg e hne hp ha hc
    simp only [handler]
    rw [if_neg hne, hp]
    dsimp only
    rw [ha]
    dsimp only
    rw [hc]
    rfl

/-- C2 witness: the three message classes at concrete errors — a classified
parse message passes through even alongside an upstream response, an
unclassified rejection with an upstream response reports the upstream status
line, and an unclassified bare rejection becomes a network error. -/
theorem c2_classification_witness :
    classifyError ⟨"Unknown keyword: FOO", some ⟨500, "Internal Server Error"⟩⟩ =
      "Unknown keyword: FOO" ∧
    classifyError ⟨"boom", some ⟨502, "Bad Gateway"⟩⟩ =
      "HTTP request failed: 502 Bad Gateway" ∧
    classifyError ⟨"boom", none⟩ = "Network error: boom" :=
  ⟨c2_status_and_classification.2.1 "Unknown keyword: FOO"
      (some ⟨500, "Internal Server Error"⟩) (by decide),
   (c2_status_and_classification.2.2.1 "boom" ⟨502, "Bad Gateway"⟩ (by decide)).trans (by rfl),
   (c2_status_and_classification.2.2.2.1 "boom" (by decide)).trans (by rfl)⟩

/-- C2 counterexample: a failing run whose 400 message is neither of the two
claimed failure forms — the parse failure "Unknown keyword: FOO" is reported
verbatim, not as a "Network error: ..." message. -/
theorem c2_counterexample :
    handler jpNone (some "HTTP GET | URL https://x.com/ | FOO bar") collabFail 0 0 =
      ⟨400, HandlerData.err "Unknown keyword: FOO"⟩ ∧
    jsStartsWith "Unknown keyword: FOO" "Network error: " = false ∧
    jsStartsWith "Unknown keyword: FOO" "HTTP request failed: " = false :=
  ⟨rfl, by decide, by decide⟩

/-- C6: a segment at index at least 2 whose trimmed text starts with none of
"HEADERS ", "QUERY ", "BODY " (trailing space required) makes the loop body
fail with "Unknown keyword: " followed by the segment's first space-delimited
word; in particular a reqline whose third segment is the bare word HEADERS is
rejected with "Unknown keyword: HEADERS". -/
theorem c6_unknown_keyword :
    (∀ (jp : JsonParser) (i : Nat) (p : String) (acc : ParseAcc), 2 ≤ i →
      jsStartsWith (jsTrim p) "HEADERS " = false →
      jsStartsWith (jsTrim p) "QUERY " = false →
      jsStartsWith (jsTrim p) "BODY " = false →
      processPart jp i p acc =
        Except.error ("Unknown keyword: " ++ ((jsSplit (jsTrim p) " ").headD ""))) ∧
    parseReqline jpNone "HTTP GET | URL https://x.com/ | HEADERS" =
      Except.error "Unknown keyword: HEADERS" := by
  constructor
  · intro jp i p acc hi h1 h2 h3
    obtain ⟨k, rfl⟩ : ∃ k, i = k + 2 := ⟨i - 2, by omega⟩
    simp only [processPart]
    rw [if_neg (by simp [h1]), if_neg (by simp [h2]), if_neg (by simp [h3])]
  · rfl

/-- C6 witness: the general clause applied to the segment "FOO bar" at index
2, starting from the initial accumulator. -/
theorem c6_unknown_keyword_witness :
    processPart jpNone 2 "FOO bar" accInit = Except.error "Unknown keyword: FOO" :=
  (c6_unknown_keyword.1 jpNone 2 "FOO bar" accInit (by decide) (by decide) (by decide)
    (by decide)).trans (by rfl)

/-- C7: with an empty query object the full URL is the base URL unchanged;
with a non-empty one it is the base URL, then "?" (or "&" when the base URL
already contains "?"), then the "&"-joined key=value pairs, each key and each
value percent-encoded independently, in the object's field order. -/
theorem c7_buildFullUrl_spec :
    (∀ baseUrl : String, buildFullUrl baseUrl (Json.obj []) = baseUrl) ∧
    (∀ (baseUrl : String) (l : List (String × Json)), l ≠ [] →
      buildFullUrl baseUrl (Json.obj l) =
        baseUrl ++ (if jsIncludes baseUrl "?" then "&" else "?") ++
          joinWith "&" (l.map (fun kv =>
            encodeURIComponent kv.1 ++ "=" ++ encodeURIComponent (jsToString kv.2)))) := by
  constructor
  · intro baseUrl
    rfl
  · intro baseUrl l hl
    have hcond : ¬ (jsFalsy (Json.obj l) = true ∨ (jsKeys (Json.obj l)).length = 0) := by
      simp [jsFalsy, jsKeys, hl]
    unfold buildFullUrl
    rw [if_neg hcond]
    rfl

/-- C7 witness: the two clauses at concrete inputs; the non-empty clause
produces the percent-encoded pair "a%20b=c%26d" behind "?". -/
theorem c7_buildFullUrl_witness :
    buildFullUrl "https://x.com/y" (Json.obj []) = "https://x.com/y" ∧
    buildFullUrl "https://x.com/y" (Json.obj [("a b", Json.str "c&d")]) =
      "https://x.com/y?a%20b=c%26d" :=
  ⟨c7_buildFullUrl_spec.1 "https://x.com/y",
   (c7_buildFullUrl_spec.2 "https://x.com/y" [("a b", Json.str "c&d")]
     (List.cons_ne_nil _ _)).trans (by rfl)⟩

/-- C8: the request configuration carries the lower-cased method, the built
full URL, the parsed headers verbatim and a 10000 ms timeout; a GET request
never attaches a payload, and for an object body a payload is attached
exactly when the method is POST and the object is non-empty. -/
theorem c8_requestConfig_spec :
    ∀ (d : Descriptor) (fullUrl : String) (cfg : RequestConfig),
      attachBody d (buildRequestConfig d fullUrl) = Except.ok cfg →
      cfg.method = jsToLower d.method ∧ cfg.url = fullUrl ∧ cfg.headers = d.headers ∧
      cfg.timeout = 10000 ∧
      (d.method = "GET" → cfg.data = none) ∧
      (∀ l, d.body = Json.obj l →
        (cfg.data = some d.body ↔ d.method = "POST" ∧ l ≠ [])) := by
  intro d fullUrl cfg h
  unfold attachBody at h
  by_cases hm : d.method = "POST"
  · rw [if_pos hm] at h
    cases hk : jsObjectKeys d.body with
    | error e =>
      rw [hk] at h
      exact Except.noConfusion h
    | ok keys =>
      rw [hk] at h
      dsimp only at h
      by_cases hpos : 0 < keys.length
      · rw [if_pos hpos] at h
        injection h with h
        subst h
        refine ⟨rfl, rfl, rfl, rfl, ?_, ?_⟩
        · intro hget; rw [hget] at hm; exact absurd hm (by decide)
        · intro l hl
          constructor
          · intro _
            refine ⟨hm, fun hnil => ?_⟩
            rw [hl, hnil] at hk
            have h2 : Except.ok (jsKeys (Json.obj [])) = Except.ok keys := hk
            injection h2 with h2
            rw [← h2] at hpos
            simp [jsKeys] at hpos
          · intro _; rfl
      · rw [if_neg hpos] at h
        injection h with h
        subst h
        refine ⟨rfl, rfl, rfl, rfl, fun _ => rfl, ?_⟩
        intro l hl
        constructor
        · intro hsome; exact absurd hsome (by simp [buildRequestConfig])
        · rintro ⟨-, hnil⟩
          exfalso
          apply hpos
          rw [hl] at hk
          have h2 : Except.ok (jsKeys (Json.obj l)) = Except.ok keys := hk
          injection h2 with h2
          rw [← h2]
          simpa [jsKeys] using List.length_pos.mpr hnil
  · rw [if_neg hm] at h
    injection h with h
    subst h
    refine ⟨rfl, rfl, rfl, rfl, fun _ => rfl, ?_⟩
    intro l hl
    constructor
    · intro hsome; exact absurd hsome (by simp [buildRequestConfig])
    · rintro ⟨hpost, -⟩; exact absurd hpost hm

/-- C8 witness: the theorem applied to a POST descriptor with a one-field
body; the payload is attached and all configuration fields are as claimed. -/
theorem c8_requestConfig_witness :
    cfgPost.method = jsToLower dPost.method ∧ cfgPost.url = "https://api.example.com/x" ∧
    cfgPost.headers = dPost.headers ∧ cfgPost.timeout = 10000 ∧
    (dPost.method = "GET" → cfgPost.data = none) ∧
    (∀ l, dPost.body = Json.obj l →
      (cfgPost.data = some dPost.body ↔ dPost.method = "POST" ∧ l ≠ [])) :=
  c8_requestConfig_spec dPost "https://api.example.com/x" cfgPost rfl

/-- Dropping while a predicate holds skips a first block on which it holds
everywhere. -/
theorem dropWhile_all_append (p : Char → Bool) :
    ∀ l1 l2 : List Char, (∀ c ∈ l1, p c = true) →
      List.dropWhile p (l1 ++ l2) = List.dropWhile p l2 := by
  intro l1
  induction l1 with
  | nil => intro l2 _; rfl
  | cons c cs ih =>
    intro l2 hall
    rw [List.cons_append, List.dropWhile_cons, if_pos (hall c (by simp))]
    exact ih l2 (fun a ha => hall a (by simp [ha]))

/-- Trimming a word followed by whitespace yields the word, provided the word
neither starts nor ends with whitespace. -/
theorem trimL_word_ws (c : Char) (cs ws : List Char) (hc : isWs c = false)
    (h2 : List.dropWhile isWs (c :: cs).reverse = (c :: cs).reverse)
    (hws : ∀ a ∈ ws, isWs a = true) :
    trimL ((c :: cs) ++ ws) = c :: cs := by
  unfold trimL
  rw [List.cons_append, List.dropWhile_cons, if_neg (by simp [hc]), ← List.cons_append,
    List.reverse_append,
    dropWhile_all_append isWs ws.reverse (c :: cs).reverse
      (fun a ha => hws a (List.mem_reverse.mp ha)),
    h2, List.reverse_reverse]

/-- Segment 0 only writes the `method` field. -/
theorem processPart_zero_fields (jp : JsonParser) (p : String) (acc acc' : ParseAcc)
    (h : processPart jp 0 p acc = Except.ok acc') :
    acc'.url = acc.url ∧ acc'.headers = acc.headers ∧
    acc'.query = acc.query ∧ acc'.body = acc.body := by
  simp only [processPart] at h
  split_ifs at h
  injection h with h
  subst h
  exact ⟨rfl, rfl, rfl, rfl⟩

/-- Segment 1 only writes the `url` field. -/
theorem processPart_one_fields (jp : JsonParser) (p : String) (acc acc' : ParseAcc)
    (h : processPart jp 1 p acc = Except.ok acc') :
    acc'.method = acc.method ∧ acc'.headers = acc.headers ∧
    acc'.query = acc.query ∧ acc'.body = acc.body := by
  simp only [processPart] at h
  split_ifs at h
  injection h with h
  subst h
  exact ⟨rfl, rfl, rfl, rfl⟩

/-- Segments at index at least 2 never write `method` or `url`. -/
theorem processPart_rest_fields (jp : JsonParser) (k : Nat) (p : String) (acc acc' : ParseAcc)
    (h : processPart jp (k + 2) p acc = Except.ok acc') :
    acc'.method = acc.method ∧ acc'.url = acc.url := by
  simp only [processPart] at h
  split_ifs at h
  all_goals try (injection h with h; subst h; exact ⟨rfl, rfl⟩)
  all_goals
    split at h <;>
      first
      | exact Except.noConfusion h
      | (injection h with h; subst h; exact ⟨rfl, rfl⟩)

/-- One loop step preserves the URL-shape invariant: the only write to `url`
happens in segment 1 after both URL checks passed. -/
theorem processPart_urlOk (jp : JsonParser) (i : Nat) (p : String) (acc acc' : ParseAcc)
    (h : processPart jp i p acc = Except.ok acc') (hacc : UrlOk acc.url) :
    UrlOk acc'.url := by
  rcases i with _ | i
  · rw [(processPart_zero_fields jp p acc acc' h).1]
    exact hacc
  · rcases i with _ | k
    · simp only [processPart] at h
      split_ifs at h with hkw hempty hscheme hlen
      injection h with h
      subst h
      intro u hu
      have hu2 : some (jsTrim (jsSubstringFrom (jsTrim p) 4)) = some u := hu
      injection hu2 with hu2
      subst hu2
      constructor
      · rcases not_and_or.mp hscheme with hx | hx
        · exact Or.inl (not_not.mp hx)
        · exact Or.inr (not_not.mp hx)
      · omega
    · rw [(processPart_rest_fields jp k p acc acc' h).2]
      exact hacc

/-- The whole loop preserves the URL-shape invariant. -/
theorem runParts_urlOk (jp : JsonParser) :
    ∀ (ps : List String) (i : Nat) (acc r : ParseAcc),
      runParts jp ps i acc = Except.ok r → UrlOk acc.url → UrlOk r.url := by
  intro ps
  induction ps with
  | nil =>
    intro i acc r h hacc
    simp only [runParts] at h
    injection h with h
    subst h
    exact hacc
  | cons p ps ih =>
    intro i acc r h hacc
    simp only [runParts] at h
    cases hp : processPart jp i p acc with
    | error e => rw [hp] at h; exact Except.noConfusion h
    | ok acc' =>
      rw [hp] at h
      dsimp only at h
      exact ih (i + 1) acc' r h (processPart_urlOk jp i p acc acc' hp hacc)

/-- Inversion for a successful parse: the loop succeeded, its result had
`method` and `url` set, and the descriptor copies the loop result's fields. -/
theorem parseReqline_ok_inv (jp : JsonParser) (rl : String) (d : Descriptor)
    (h : parseReqline jp rl = Except.ok d) :
    ∃ r : ParseAcc, runParts jp (jsSplit rl " | ") 0 accInit = Except.ok r ∧
      r.method = some d.method ∧ r.url = some d.url ∧
      r.headers = d.headers ∧ r.query = d.query ∧ r.body = d.body := by
  simp only [parseReqline] at h
  by_cases hlen : (jsSplit rl " | ").length < 2
  · rw [if_pos hlen] at h
    exact Except.noConfusion h
  · rw [if_neg hlen] at h
    cases hr : runParts jp (jsSplit rl " | ") 0 accInit with
    | error e => rw [hr] at h; exact Except.noConfusion h
    | ok r =>
      rw [hr] at h
      dsimp only at h
      cases hm : r.method with
      | none => rw [hm] at h; exact Except.noConfusion h
      | some m =>
        rw [hm] at h
        dsimp only at h
        cases hu : r.url with
        | none => rw [hu] at h; exact Except.noConfusion h
        | some u =>
          rw [hu] at h
          dsimp only at h
          injection h with h
          subst h
          exact ⟨r, rfl, hm, hu, rfl, rfl, rfl⟩

/-- C3 (amended): every URL value accepted by the parser starts with http://
or https:// and splits on "/" into at least 3 parts; since the scheme itself
accounts for two of them, this guarantees a domain but not a path. -/
theorem c3_accepted_url_shape (jp : JsonParser) (rl : String) (d : Descriptor)
    (h : parseReqline jp rl = Except.ok d) :
    (jsStartsWith d.url "http://" = true ∨ jsStartsWith d.url "https://" = true) ∧
    3 ≤ (jsSplit d.url "/").length := by
  obtain ⟨r, hr, -, hu, -, -, -⟩ := parseReqline_ok_inv jp rl d h
  exact runParts_urlOk jp (jsSplit rl " | ") 0 accInit r hr
    (fun u hu' => Option.noConfusion hu') d.url hu

/-- C3 witness: the amended theorem at a concretely accepted reqline. -/
theorem c3_accepted_url_shape_witness :
    (jsStartsWith "https://x.com/y" "http://" = true ∨
      jsStartsWith "https://x.com/y" "https://" = true) ∧
    3 ≤ (jsSplit "https://x.com/y" "/").length :=
  c3_accepted_url_shape jpNone "HTTP GET | URL https://x.com/y" dGet rfl

/-- C3 counterexample: the URL http://a, with a domain but nothing after it,
is accepted — its split on "/" has exactly the 3 parts contributed by the
scheme and the domain, so the stored url has no path component at all. -/
theorem c3_counterexample :
    parseReqline jpNone "HTTP GET | URL http://a" =
      Except.ok { method := "GET", url := "http://a"
                  headers := Json.obj [], query := Json.obj [], body := Json.obj [] } ∧
    jsSplit "http://a" "/" = ["http:", "", "a"] ∧
    ¬ 4 ≤ (jsSplit "http://a" "/").length :=
  ⟨rfl, by decide, by decide⟩

/-- C4 (amended): a first segment consisting of the keyword HTTP followed
only by whitespace fails with "Missing required HTTP keyword" (trimming
removes the trailing whitespace, so the "HTTP "-prefix test fails before the
method-emptiness check runs); likewise a second segment consisting of URL
followed only by whitespace fails with "Missing required URL keyword". -/
theorem c4_keyword_only_whitespace :
    (∀ (jp : JsonParser) (acc : ParseAcc) (ws : List Char), (∀ a ∈ ws, isWs a = true) →
      processPart jp 0 ⟨"HTTP".data ++ ws⟩ acc =
        Except.error "Missing required HTTP keyword") ∧
    (∀ (jp : JsonParser) (acc : ParseAcc) (ws : List Char), (∀ a ∈ ws, isWs a = true) →
      processPart jp 1 ⟨"URL".data ++ ws⟩ acc =
        Except.error "Missing required URL keyword") ∧
    parseReqline jpNone "HTTP   | URL https://x.com/y" =
      Except.error "Missing required HTTP keyword" := by
  refine ⟨?_, ?_, rfl⟩
  · intro jp acc ws hws
    have ht : jsTrim ⟨"HTTP".data ++ ws⟩ = "HTTP" := by
      show String.mk (trimL (('H' :: ['T', 'T', 'P']) ++ ws)) = "HTTP"
      rw [trimL_word_ws 'H' ['T', 'T', 'P'] ws (by decide) (by decide) hws]
    simp only [processPart, ht]
    rw [if_pos (by decide)]
  · intro jp acc ws hws
    have ht : jsTrim ⟨"URL".data ++ ws⟩ = "URL" := by
      show String.mk (trimL (('U' :: ['R', 'L']) ++ ws)) = "URL"
      rw [trimL_word_ws 'U' ['R', 'L'] ws (by decide) (by decide) hws]
    simp only [processPart, ht]
    rw [if_pos (by decide)]

/-- C4 witness: the amended theorem at segments with two and one trailing
spaces. -/
theorem c4_keyword_only_whitespace_witness :
    processPart jpNone 0 ⟨"HTTP".data ++ [' ', ' ']⟩ accInit =
      Except.error "Missing required HTTP keyword" ∧
    processPart jpNone 1 ⟨"URL".data ++ [' ']⟩ accInit =
      Except.error "Missing required URL keyword" :=
  ⟨c4_keyword_only_whitespace.1 jpNone accInit [' ', ' '] (by decide),
   c4_keyword_only_whitespace.2.1 jpNone accInit [' '] (by decide)⟩

/-- C4 counterexample: the reqline whose first segment is HTTP plus spaces
fails with "Missing required HTTP keyword", not the claimed "Missing HTTP
method". -/
theorem c4_counterexample :
    parseReqline jpNone "HTTP   | URL https://x.com/y" =
      Except.error "Missing required HTTP keyword" ∧
    "Missing required HTTP keyword" ≠ "Missing HTTP method" :=
  ⟨rfl, by decide⟩

/-- C5: the minimal GET reqline parses to the expected descriptor, and every
reqline with exactly the two HTTP and URL segments that parses successfully
has empty headers, query and body objects. -/
theorem c5_minimal_reqline :
    parseReqline jpNone "HTTP GET | URL https://api.example.com/x" =
      Except.ok { method := "GET", url := "https://api.example.com/x"
                  headers := Json.obj [], query := Json.obj [], body := Json.obj [] } ∧
    (∀ (jp : JsonParser) (rl : String) (d : Descriptor),
      (jsSplit rl " | ").length = 2 → parseReqline jp rl = Except.ok d →
      d.headers = Json.obj [] ∧ d.query = Json.obj [] ∧ d.body = Json.obj []) := by
  constructor
  · rfl
  · intro jp rl d hlen hp
    obtain ⟨r, hr, -, -, hh, hq, hb⟩ := parseReqline_ok_inv jp rl d hp
    obtain ⟨a, b, hab⟩ : ∃ a b, jsSplit rl " | " = [a, b] := by
      cases hsp : jsSplit rl " | " with
      | nil =>
        rw [hsp] at hlen
        simp only [List.length_nil] at hlen
        omega
      | cons a rest =>
        cases rest with
        | nil =>
          rw [hsp] at hlen
          simp only [List.length_cons, List.length_nil] at hlen
          omega
        | cons b rest2 =>
          cases rest2 with
          | nil => exact ⟨a, b, rfl⟩
          | cons c rest3 =>
            rw [hsp] at hlen
            simp only [List.length_cons] at hlen
            omega
    rw [hab] at hr
    simp only [runParts] at hr
    split at hr
    · exact Except.noConfusion hr
    · rename_i acc1 h0
      split at hr
      · exact Except.noConfusion hr
      · rename_i acc2 h1
        injection hr with hr
        subst hr
        have f0 := processPart_zero_fields jp a accInit acc1 h0
        have f1 := processPart_one_fields jp b acc1 acc2 h1
        refine ⟨?_, ?_, ?_⟩
        · rw [← hh, f1.2.1, f0.2.1]
          rfl
        · rw [← hq, f1.2.2.1, f0.2.2.1]
          rfl
        · rw [← hb, f1.2.2.2, f0.2.2.2]
          rfl

/-- C5 witness: the universal clause applied to a two-segment reqline. -/
theorem c5_minimal_reqline_witness :
    dGet.headers = Json.obj [] ∧ dGet.query = Json.obj [] ∧ dGet.body = Json.obj [] :=
  c5_minimal_reqline.2 jpNone "HTTP GET | URL https://x.com/y" dGet (by decide) rfl

end Reqline
